import Mathlib

/-!
Verification development for the auto_arxiv ingestion-indexing-retrieval
engine.  The definitions below are a shallow embedding of the Python source:

* `metadata_db.py`   — relational metadata store (domains, tasks, papers,
  vector metadata) with get-or-create helpers and the category-merge
  primitive;
* `vector_db.py`     — the FAISS-backed vector index manager
  (load-or-create, add, search);
* `hrag_manager.py`  — the per-batch embedding/indexing step of
  `process_and_add_paper`;
* `ingestion_flow.py` — `process_papers_list` (full and metadata-only modes);
* `api/main.py`      — the two-phase merge executor
  `execute_category_merges`;
* `agents/ingestion_agent.py` — `propose_category_merges` (clustering,
  synonym-subset discovery, arbitration, proposal emission);
* `query_flow.py`    — `_retrieve_local_context` selection/deduplication and
  the local path of `run_stream`.

External services (embedding model, reranker, LLM classification, clustering
numerics, PDF parsing) are passed in as function parameters ("oracles"); the
relational state is explicit.  SQLite NULL is `Option`; the Python value
`None` coerced through `str()` is modelled by `pyStr`.
-/

set_option maxRecDepth 4000

namespace AutoArxiv

/-- A row of the `domains` table (`metadata_db.py`, `create_tables`). -/
structure DomainRow where
  id : Nat
  name : String
deriving DecidableEq

/-- A row of the `tasks` table: unique on `(name, domain_id)`. -/
structure TaskRow where
  id : Nat
  name : String
  domainId : Nat
deriving DecidableEq

/-- A row of the `papers` table.  `pdfPath` / `structuredTextPath` are the
TEXT columns `pdf_path` / `structured_text_path`; `none` is SQL NULL. -/
structure PaperRow where
  id : Nat
  arxivId : String
  title : String
  authors : List String
  summary : Option String
  generatedSummary : Option String
  publishedDate : String
  pdfPath : Option String
  structuredTextPath : Option String
  domainId : Option Nat
  taskId : Option Nat
deriving DecidableEq

/-- A row of the `vector_metadata` table. -/
structure VMeta where
  id : Int
  mtype : String
  sourceId : String
  chunkSeq : Option Nat
  domainId : Option Nat
  taskId : Option Nat
  contentPreview : String
deriving DecidableEq

/-- The relational state of the metadata store together with the number of
vectors currently held by the vector index (`index.ntotal`).  The `next…`
counters model SQLite's AUTOINCREMENT row-id allocation. -/
structure Store where
  domains : List DomainRow
  tasks : List TaskRow
  papers : List PaperRow
  vectorMeta : List VMeta
  indexCount : Nat
  nextDomainId : Nat
  nextTaskId : Nat
  nextPaperId : Nat
deriving DecidableEq

/-- Python `str(x)` applied to an optional string-like value:
`str(None) = "None"` (the coercion in `add_paper`, `metadata_db.py` lines
113–114). -/
def pyStr (v : Option String) : String :=
  match v with
  | none => "None"
  | some s => s

/-- `metadata_db.get_max_vector_id`: `SELECT MAX(id) FROM vector_metadata`,
returning `-1` when the table is empty. -/
def get_max_vector_id (rows : List VMeta) : Int :=
  rows.foldl (fun acc r => max acc r.id) (-1)

/-- `metadata_db.check_if_paper_exists`. -/
def check_if_paper_exists (st : Store) (arxivId : String) : Bool :=
  st.papers.any (fun p => p.arxivId == arxivId)

/-- Input record handed to the ingestion flow (the `paper_data` dict plus
the optional precomputed `classification_result`). -/
structure PaperData where
  arxivId : String
  title : String
  authors : List String
  summary : Option String
  publishedDate : String
  pdfPath : Option String
  jsonPath : Option String
  classificationResult : Option (String × String)
deriving DecidableEq

/-- `metadata_db.add_paper`: INSERT of a new paper row; the UNIQUE
constraint on `arxiv_id` makes a duplicate an `IntegrityError`, which the
function catches and converts into the failure value `none`.  Note the
`str(...)` coercion of `pdf_path` / `json_path` (`pyStr`). -/
def add_paper (st : Store) (pd : PaperData) : Option Nat × Store :=
  if check_if_paper_exists st pd.arxivId then
    (none, st)
  else
    let row : PaperRow :=
      { id := st.nextPaperId
        arxivId := pd.arxivId
        title := pd.title
        authors := pd.authors
        summary := pd.summary
        generatedSummary := none
        publishedDate := pd.publishedDate
        pdfPath := some (pyStr pd.pdfPath)
        structuredTextPath := some (pyStr pd.jsonPath)
        domainId := none
        taskId := none }
    (some st.nextPaperId,
      { st with papers := st.papers ++ [row], nextPaperId := st.nextPaperId + 1 })

/-- `metadata_db.add_or_get_domain`: get-or-create keyed on the unique
domain name. -/
def add_or_get_domain (st : Store) (name : String) : Nat × Store :=
  match st.domains.find? (fun d => d.name == name) with
  | some d => (d.id, st)
  | none =>
      (st.nextDomainId,
        { st with domains := st.domains ++ [⟨st.nextDomainId, name⟩],
                  nextDomainId := st.nextDomainId + 1 })

/-- `metadata_db.add_or_get_task`: get-or-create keyed on the unique
`(name, domain_id)` pair. -/
def add_or_get_task (st : Store) (name : String) (domainId : Nat) : Nat × Store :=
  match st.tasks.find? (fun t => t.name == name && t.domainId == domainId) with
  | some t => (t.id, st)
  | none =>
      (st.nextTaskId,
        { st with tasks := st.tasks ++ [⟨st.nextTaskId, name, domainId⟩],
                  nextTaskId := st.nextTaskId + 1 })

/-- `metadata_db.update_paper_summary_and_classification`: UPDATE of the
classification columns (and `generated_summary`) keyed on `arxiv_id`. -/
def update_paper_summary_and_classification (st : Store) (arxivId : String)
    (domainId taskId : Nat) (summary : Option String) : Store :=
  { st with papers := st.papers.map (fun p =>
      if p.arxivId == arxivId then
        { p with domainId := some domainId, taskId := some taskId,
                 generatedSummary := summary }
      else p) }

/-- `metadata_db.execute_category_merge`: ensure the `to` category exists,
look up the `from` category (returning `(none, none)` when absent), treat a
self-merge as a no-op, otherwise repoint every paper and vector-metadata row
whose `task_id` equals the `from` task id. -/
def execute_category_merge (st : Store)
    (fromDomainName fromTaskName toDomainName toTaskName : String) :
    (Option Nat × Option Nat) × Store :=
  let (toDomainId, st1) := add_or_get_domain st toDomainName
  let (toTaskId, st2) := add_or_get_task st1 toTaskName toDomainId
  match st2.domains.find? (fun d => d.name == fromDomainName) with
  | none => ((none, none), st2)
  | some fromDomain =>
    match st2.tasks.find? (fun t =>
        t.name == fromTaskName && t.domainId == fromDomain.id) with
    | none => ((none, none), st2)
    | some fromTask =>
      if fromTask.id == toTaskId then
        ((some fromTask.id, some toTaskId), st2)
      else
        ((some fromTask.id, some toTaskId),
          { st2 with
            papers := st2.papers.map (fun p =>
              if p.taskId == some fromTask.id then
                { p with domainId := some toDomainId, taskId := some toTaskId }
              else p),
            vectorMeta := st2.vectorMeta.map (fun v =>
              if v.taskId == some fromTask.id then
                { v with domainId := some toDomainId, taskId := some toTaskId }
              else v) })

/-- A confirmed merge item of the executor payload:
`{from: {domain, task}, to: {domain, task}}`. -/
structure MergeItem where
  fromDomain : String
  fromTask : String
  toDomain : String
  toTask : String
deriving DecidableEq

/-- The two-phase merge executor (`api/main.py`, `execute_category_merges`):
phase 1 folds `execute_category_merge` over the confirmed list inside one
transaction, collecting the set of orphaned `from` task ids (a `from` that
resolved to its own `to` contributes nothing); phase 2 deletes the collected
task rows.  The `tasks_to_delete` Python set is modelled as a
duplicate-free list. -/
def execute_category_merges (st : Store) (merges : List MergeItem) : Store :=
  let phase1 := merges.foldl
    (fun (acc : Store × List Nat) m =>
      let (st0, dels) := acc
      let (ids, st1) :=
        execute_category_merge st0 m.fromDomain m.fromTask m.toDomain m.toTask
      match ids with
      | (some fromId, toId) =>
          if some fromId ≠ toId ∧ fromId ∉ dels then (st1, dels ++ [fromId])
          else if some fromId ≠ toId then (st1, dels)
          else (st1, dels)
      | (none, _) => (st1, dels))
    (st, [])
  let st1 := phase1.1
  let toDelete := phase1.2
  { st1 with tasks := st1.tasks.filter (fun t => t.id ∉ toDelete) }

/-- A FAISS index as observed by callers: its dimensionality `d` and its
vector count `ntotal`. -/
structure FIndex where
  d : Nat
  ntotal : Nat
deriving DecidableEq

/-- `VectorDBManager._load_or_create_index` (`vector_db.py` lines 55–74).
`readResult` is the outcome of `faiss.read_index` (`none` = the read itself
raised).  The dimensionality check raises a `ValueError`, but the
surrounding `except` clause catches every exception and calls
`_create_new_index`, which returns the fresh empty `IndexFlatL2` of the
configured model dimension.  The GPU move does not change `d`/`ntotal`. -/
def load_or_create_index (fileExists : Bool) (readResult : Option FIndex)
    (dimension : Nat) : FIndex :=
  if fileExists then
    match readResult with
    | some idx => if idx.d ≠ dimension then ⟨dimension, 0⟩ else idx
    | none => ⟨dimension, 0⟩
  else ⟨dimension, 0⟩

/-- One iteration of the per-batch loop of
`HRAGManager.process_and_add_paper` (`hrag_manager.py` lines 69–97), for the
batch starting at offset `i` into `all_text_chunks`.  `vectors` is what the
embedding service returned for `batchTexts`; a batch whose encoding came
back empty is skipped with a warning.  Otherwise, inside one transaction:
read `get_max_vector_id`, allocate ids `maxId+1, maxId+2, …`, append the
vectors to the index, and insert the metadata rows (the very first element
of the very first batch is the paper summary; every other element is a raw
chunk with `chunk_seq = i + j - 1`). -/
def processEmbeddingBatch (arxivId : String) (domainId taskId : Nat)
    (i : Nat) (batchTexts : List String) (vectors : List (List Int))
    (st : Store) : Store :=
  if vectors.length == 0 then st
  else
    let maxId := get_max_vector_id st.vectorMeta
    let startId := maxId + 1
    let metas := batchTexts.enum.map (fun jt =>
      let j : Nat := jt.1
      let isSummary := i == 0 && j == 0
      { id := startId + (j : Int)
        mtype := if isSummary then "paper_summary" else "raw_chunk"
        sourceId := arxivId
        chunkSeq := if isSummary then none else some (i + j - 1 : Nat)
        domainId := some domainId
        taskId := some taskId
        contentPreview := jt.2.take 200 : VMeta })
    { st with
      vectorMeta := st.vectorMeta ++ metas,
      indexCount := st.indexCount + vectors.length }

/-- `VectorDBManager.search` (`vector_db.py` lines 104–125): when the index
holds zero vectors the function returns a pair of empty arrays instead of
calling FAISS; otherwise the backend search (abstracted as `inner`) runs. -/
def vector_search (ntotal : Nat) (inner : Nat → List Int × List Int)
    (k : Nat) : List Int × List Int :=
  if ntotal == 0 then ([], []) else inner k

/-- The selection loop of `QueryWorkflow._retrieve_local_context`
(`query_flow.py` lines 191–199): walk the rerank-sorted document list,
stopping once `rerank_top_n` metas are selected, skipping any document
whose metadata has an empty or already-seen `source_id`.  In the source
the `doc_map` lookup cannot fail (the walked documents are exactly its
keys); a missing key is modelled as a skip. -/
def selectTopMetas (rerankTopN : Nat) (docMap : String → Option VMeta) :
    List String → List VMeta → List String → List VMeta
  | [], acc, _ => acc
  | d :: rest, acc, seen =>
    if rerankTopN ≤ acc.length then acc
    else
      match docMap d with
      | none => selectTopMetas rerankTopN docMap rest acc seen
      | some m =>
        if m.sourceId ≠ "" ∧ m.sourceId ∉ seen then
          selectTopMetas rerankTopN docMap rest (acc ++ [m]) (m.sourceId :: seen)
        else
          selectTopMetas rerankTopN docMap rest acc seen

/-- The context-block construction of `_retrieve_local_context`
(`query_flow.py` lines 201–208): one block per selected meta whose paper
details resolve, keyed by the meta's `source_id`. -/
def contextBlocks (getDetails : String → Option PaperRow)
    (selected : List VMeta) : List (String × PaperRow) :=
  selected.filterMap (fun m => (getDetails m.sourceId).map (fun d => (m.sourceId, d)))

/-- `QueryWorkflow._retrieve_local_context` (`query_flow.py` lines
163–211), with the embedding model (`encode`), the FAISS backend search
(`inner`), the metadata lookup (`metaOf`, for `get_metadata_for_ids`), the
rerank-and-sort step (`rankDocs`, abstracting
`sorted(zip(docs, rerank(...)), reverse=True)` to the document order it
produces), and the paper lookup (`getDetails`) as oracles.  Returns the
joined context string's blocks and the selected source papers. -/
def retrieve_local_context (encode : String → List Int)
    (ntotal : Nat) (inner : Nat → List Int × List Int)
    (metaOf : Int → Option VMeta)
    (rankDocs : List String → List String)
    (getDetails : String → Option PaperRow)
    (topK rerankTopN : Nat) (query : String) :
    List (String × PaperRow) :=
  let queryVector := encode query
  if queryVector.length == 0 then []
  else
    let retrievedIds := (vector_search ntotal inner topK).2
    if !(retrievedIds.any (fun i => i ≠ 0)) then []
    else
      let validIds := retrievedIds.filter (fun i => i ≥ 0)
      let candidatePairs := validIds.filterMap (fun i =>
        match metaOf i with
        | none => none
        | some m => if m.contentPreview ≠ "" then some (m.contentPreview, m) else none)
      let candidateDocs := candidatePairs.map (·.1)
      if candidateDocs.isEmpty then []
      else
        let docMap : String → Option VMeta := fun d =>
          (candidatePairs.reverse.find? (fun p => p.1 == d)).map (·.2)
        let ranked := rankDocs candidateDocs
        let selected := selectTopMetas rerankTopN docMap ranked [] []
        contextBlocks getDetails selected

/-- A source record of the final query event. -/
structure SourceRec where
  arxivId : String
  title : String
deriving DecidableEq

/-- The final event's payload (`run_stream`'s `{"answer": …, "sources": …}`). -/
structure FinalData where
  answer : String
  sources : List SourceRec
deriving DecidableEq

/-- The "not found" answer of `run_stream` (`query_flow.py` line 285). -/
def notFoundAnswer (sourceType : String) : String :=
  "非常抱歉，在" ++ sourceType ++ "中未能找到与您问题相关的信息。"

/-- The local path of `QueryWorkflow.run_stream` (`query_flow.py` lines
279–317), reduced to its final event payload: retrieve local context; when
no papers were found emit the "not found" answer with an empty source list;
otherwise synthesize an answer (oracle `synth`) over the blocks and emit the
deduplicated source records. -/
def run_stream_local (retrieve : String → List (String × PaperRow))
    (synth : String → List (String × PaperRow) → Option String)
    (query : String) : FinalData :=
  let blocks := retrieve query
  if blocks.isEmpty then
    ⟨notFoundAnswer "Local Knowledge Base", []⟩
  else
    match synth query blocks with
    | none => ⟨"抱歉，我无法根据现有信息生成一个连贯的答案。可能信息之间存在矛盾或不足。", []⟩
    | some ans =>
        let dedup := blocks.foldl
          (fun (acc : List SourceRec × List String) b =>
            if b.2.arxivId = "" ∨ b.2.arxivId ∈ acc.2 then acc
            else (acc.1 ++ [⟨b.2.arxivId, b.2.title⟩], acc.2 ++ [b.2.arxivId]))
          ([], [])
        ⟨ans, dedup.1⟩

/-- A `(domain, task)` category as handled by `propose_category_merges`. -/
structure Category where
  domain : String
  task : String
deriving DecidableEq

/-- A merge proposal `{from, to, reason}`. -/
structure Proposal where
  fromCat : Category
  toCat : Category
  reason : String
deriving DecidableEq

/-- Steps 3b/3c of `propose_category_merges` (`ingestion_agent.py` lines
394–421) for one synonym group: skip groups of fewer than two members; ask
the arbitration service (`arbitrate`) for the canonical form; skip if it
fails; skip (with a warning) if the canonical form is not a member of the
group; otherwise emit one proposal per non-canonical member. -/
def proposalsForGroup (arbitrate : List Category → Option Category)
    (group : List Category) : List Proposal :=
  if group.length < 2 then []
  else
    match arbitrate group with
    | none => []
    | some canonical =>
      if canonical ∈ group then
        (group.filter (fun c => c ≠ canonical)).map
          (fun c => ⟨c, canonical, "AI-Identified Synonym Group"⟩)
      else []

/-- Step 3a of `propose_category_merges` for one candidate cluster: ask the
subset-discovery service (`subsets`) for synonym groups — a missing or empty
answer skips the cluster — then fold the per-group step over them. -/
def proposalsForCluster (subsets : List Category → Option (List (List Category)))
    (arbitrate : List Category → Option Category)
    (cluster : List Category) : List Proposal :=
  match subsets cluster with
  | none => []
  | some groups =>
      if groups.isEmpty then []
      else groups.foldl (fun acc g => acc ++ proposalsForGroup arbitrate g) []

/-- `propose_category_merges` (`ingestion_agent.py` lines 325–424): return
no proposals when fewer than two categories exist; cluster the flat category
list (`clusterFn` abstracts the agglomerative-clustering numerics), keep
clusters with more than one member as candidate clusters, and accumulate
each cluster's proposals. -/
def propose_category_merges (flatCategories : List Category)
    (clusterFn : List Category → List (List Category))
    (subsets : List Category → Option (List (List Category)))
    (arbitrate : List Category → Option Category) : List Proposal :=
  if flatCategories.length < 2 then []
  else
    let candidateClusters := (clusterFn flatCategories).filter (fun c => 1 < c.length)
    candidateClusters.foldl
      (fun acc cl => acc ++ proposalsForCluster subsets arbitrate cl) []

/-- The pdf/json paths produced by `pdf_processor.process_paper`. -/
structure PathInfo where
  pdfPath : String
  jsonPath : String
deriving DecidableEq

/-- One iteration of `process_papers_list` (`ingestion_flow.py` lines
34–120) for a single paper: a paper already in the store is counted as a
success without touching any state; otherwise the mode branch runs.  In
`full` mode: parse the pdf (`parse` oracle; failure skips), `add_paper`
(failure skips), then hand off to `HRAGManager.process_and_add_paper`
(`hrag` oracle returning success and the possibly-updated store).  In
`metadata_only` mode: `add_paper` with both paths set to `None`, then — if
a precomputed classification is present — get-or-create its domain and task
and update the paper row.  Any other mode skips the paper. -/
def processOnePaper (mode : String)
    (parse : PaperData → Option PathInfo)
    (hrag : Store → PaperData → Bool × Store)
    (st : Store) (pd : PaperData) : Bool × Store :=
  if check_if_paper_exists st pd.arxivId then (true, st)
  else if mode == "full" then
    match parse pd with
    | none => (false, st)
    | some paths =>
      let pdFull := { pd with pdfPath := some paths.pdfPath,
                              jsonPath := some paths.jsonPath }
      match add_paper st pdFull with
      | (none, st1) => (false, st1)
      | (some _, st1) => hrag st1 pdFull
  else if mode == "metadata_only" then
    let pdMeta := { pd with pdfPath := none, jsonPath := none }
    match add_paper st pdMeta with
    | (none, st1) => (false, st1)
    | (some _, st1) =>
      match pd.classificationResult with
      | none => (true, st1)
      | some cls =>
        let (domainId, st2) := add_or_get_domain st1 cls.1
        let (taskId, st3) := add_or_get_task st2 cls.2 domainId
        (true, update_paper_summary_and_classification st3 pd.arxivId domainId taskId none)
  else (false, st)

/-- `process_papers_list` (`ingestion_flow.py` lines 16–123): fold the
per-paper step over the input list, collecting the papers counted as
successfully processed. -/
def process_papers_list (mode : String)
    (parse : PaperData → Option PathInfo)
    (hrag : Store → PaperData → Bool × Store)
    (st : Store) (papers : List PaperData) : List PaperData × Store :=
  papers.foldl
    (fun (acc : List PaperData × Store) pd =>
      let (success, st1) := processOnePaper mode parse hrag acc.2 pd
      (if success then acc.1 ++ [pd] else acc.1, st1))
    ([], st)

/-- A fresh metadata store (empty tables, SQLite row ids starting at 1) with
an empty vector index. -/
def emptyStore : Store :=
  { domains := [], tasks := [], papers := [], vectorMeta := [],
    indexCount := 0, nextDomainId := 1, nextTaskId := 1, nextPaperId := 1 }

/-- C10: `execute_category_merge` is not atomic on its NotFound failure
path: when the `from` domain (or task) does not exist, the call returns the
failure value `(None, None)`, yet the `to` domain and `to` task rows it
created beforehand remain — the store's state changes even though the merge
reports failure. -/
theorem C10_merge_notfound_not_atomic :
    execute_category_merge emptyStore "FD" "FT" "TD" "TT" =
      ((none, none),
        { emptyStore with
          domains := [⟨1, "TD"⟩], tasks := [⟨1, "TT", 1⟩],
          nextDomainId := 2, nextTaskId := 2 }) ∧
    (execute_category_merge emptyStore "FD" "FT" "TD" "TT").2 ≠ emptyStore := by
  decide

/-- C2 counterexample: loading a persisted index whose dimensionality (384)
differs from the configured embedding width (768) is not fatal — the
manager catches the mismatch error and silently falls back to a fresh empty
index of the configured dimension, discarding the persisted vectors. -/
theorem C2_counterexample :
    load_or_create_index true (some ⟨384, 10⟩) 768 = ⟨768, 0⟩ ∧
    (load_or_create_index true (some ⟨384, 10⟩) 768).ntotal = 0 := by
  decide

/-- C2 (amended): when the persisted index's dimensionality differs from
the configured embedding width, `_load_or_create_index` does not fail:
the raised mismatch error is caught and the manager falls back to creating
a fresh empty index of the configured dimension. -/
theorem C2_dimension_mismatch_fallback (idx : FIndex) (dimension : Nat)
    (hdim : idx.d ≠ dimension) :
    load_or_create_index true (some idx) dimension = ⟨dimension, 0⟩ := by
  simp [load_or_create_index, hdim]

/-- Witness for `C2_dimension_mismatch_fallback` at dims 384 vs 768. -/
theorem C2_dimension_mismatch_fallback_witness :
    (384 : Nat) ≠ 768 ∧
    load_or_create_index true (some ⟨384, 10⟩) 768 = ⟨768, 0⟩ :=
  ⟨by decide, C2_dimension_mismatch_fallback ⟨384, 10⟩ 768 (by decide)⟩

/-- C8: evaluating the metadata-only ingestion path on a concrete paper.
The stored row's `pdf_path` and `structured_text_path` are NOT NULL: they
hold the four-character string `"None"`, because `add_paper` wraps the
Python `None` values in `str(...)`. -/
theorem C8_metadata_only_paths_are_str_None :
    ((process_papers_list "metadata_only" (fun _ => none) (fun st _ => (false, st))
        emptyStore
        [{ arxivId := "2401.00001", title := "T", authors := ["a"],
           summary := some "abs", publishedDate := "2024-01-01",
           pdfPath := none, jsonPath := none,
           classificationResult := none }]).2.papers.map
      (fun p => (p.pdfPath, p.structuredTextPath)))
      = [(some "None", some "None")] := by
  decide

/-- C6: re-ingesting a paper whose `arxiv_id` already exists is a success
no-op: `process_papers_list` counts it as successfully processed while the
store (paper rows and vector index count alike) is left unchanged, and
`add_paper` on the duplicate returns the failure value `none` instead of
raising. -/
theorem C6_duplicate_ingestion_noop (mode : String)
    (parse : PaperData → Option PathInfo)
    (hrag : Store → PaperData → Bool × Store)
    (st : Store) (pd : PaperData)
    (hdup : check_if_paper_exists st pd.arxivId = true) :
    process_papers_list mode parse hrag st [pd] = ([pd], st) ∧
    add_paper st pd = (none, st) := by
  constructor
  · simp [process_papers_list, processOnePaper, hdup]
  · simp [add_paper, hdup]

/-- Witness for `C6_duplicate_ingestion_noop`: a store already holding
paper `2401.00001`. -/
theorem C6_duplicate_ingestion_noop_witness :
    check_if_paper_exists
        { emptyStore with
          papers := [{ id := 1, arxivId := "2401.00001", title := "T",
                       authors := [], summary := none, generatedSummary := none,
                       publishedDate := "2024-01-01", pdfPath := none,
                       structuredTextPath := none, domainId := none,
                       taskId := none }],
          nextPaperId := 2 } "2401.00001" = true ∧
    (process_papers_list "full" (fun _ => none) (fun st _ => (false, st))
        { emptyStore with
          papers := [{ id := 1, arxivId := "2401.00001", title := "T",
                       authors := [], summary := none, generatedSummary := none,
                       publishedDate := "2024-01-01", pdfPath := none,
                       structuredTextPath := none, domainId := none,
                       taskId := none }],
          nextPaperId := 2 }
        [{ arxivId := "2401.00001", title := "T", authors := [],
           summary := none, publishedDate := "2024-01-01",
           pdfPath := none, jsonPath := none, classificationResult := none }]
      = ([{ arxivId := "2401.00001", title := "T", authors := [],
            summary := none, publishedDate := "2024-01-01",
            pdfPath := none, jsonPath := none, classificationResult := none }],
         { emptyStore with
           papers := [{ id := 1, arxivId := "2401.00001", title := "T",
                        authors := [], summary := none, generatedSummary := none,
                        publishedDate := "2024-01-01", pdfPath := none,
                        structuredTextPath := none, domainId := none,
                        taskId := none }],
           nextPaperId := 2 }) ∧
     add_paper
        { emptyStore with
          papers := [{ id := 1, arxivId := "2401.00001", title := "T",
                       authors := [], summary := none, generatedSummary := none,
                       publishedDate := "2024-01-01", pdfPath := none,
                       structuredTextPath := none, domainId := none,
                       taskId := none }],
          nextPaperId := 2 }
        { arxivId := "2401.00001", title := "T", authors := [],
          summary := none, publishedDate := "2024-01-01",
          pdfPath := none, jsonPath := none, classificationResult := none }
      = (none,
         { emptyStore with
           papers := [{ id := 1, arxivId := "2401.00001", title := "T",
                        authors := [], summary := none, generatedSummary := none,
                        publishedDate := "2024-01-01", pdfPath := none,
                        structuredTextPath := none, domainId := none,
                        taskId := none }],
           nextPaperId := 2 })) :=
  ⟨by decide,
   C6_duplicate_ingestion_noop "full" (fun _ => none) (fun st _ => (false, st))
     _ _ (by decide)⟩

/-- C5: for a synonym subset of size ≥ 2 whose arbitration returned
`canonical`: if `canonical` is not a member of the subset, the subset is
discarded and contributes zero proposals; if it is a member, exactly one
proposal is emitted per non-canonical member, each with `to` equal to
`canonical`. -/
theorem C5_arbitration_member_rule
    (arbitrate : List Category → Option Category)
    (group : List Category) (canonical : Category)
    (hlen : 2 ≤ group.length)
    (harb : arbitrate group = some canonical) :
    (canonical ∉ group → proposalsForGroup arbitrate group = []) ∧
    (canonical ∈ group →
      proposalsForGroup arbitrate group =
        (group.filter (fun c => c ≠ canonical)).map
          (fun c => ⟨c, canonical, "AI-Identified Synonym Group"⟩)) ∧
    (∀ p ∈ proposalsForGroup arbitrate group, p.toCat = canonical) := by
  have hnotlt : ¬ group.length < 2 := Nat.not_lt.mpr hlen
  refine ⟨fun hnot => ?_, fun hmem => ?_, fun p hp => ?_⟩
  · simp [proposalsForGroup, hnotlt, harb, hnot]
  · simp [proposalsForGroup, hnotlt, harb, hmem]
  · by_cases hmem : canonical ∈ group
    · simp only [proposalsForGroup, hnotlt, if_false, harb, hmem, if_true] at hp
      rcases List.mem_map.mp hp with ⟨c, _, rfl⟩
      rfl
    · simp [proposalsForGroup, hnotlt, harb, hmem] at hp

/-- Witness for `C5_arbitration_member_rule`: the two-member subset
{(CV, Object Detection), (Computer Vision, Object Detection)} with the
arbitration naming (Computer Vision, Object Detection) canonical. -/
theorem C5_arbitration_member_rule_witness :
    2 ≤ ([⟨"CV", "Object Detection"⟩,
          ⟨"Computer Vision", "Object Detection"⟩] : List Category).length ∧
    ((fun _ => some (⟨"Computer Vision", "Object Detection"⟩ : Category)) :
        List Category → Option Category)
      [⟨"CV", "Object Detection"⟩, ⟨"Computer Vision", "Object Detection"⟩]
      = some ⟨"Computer Vision", "Object Detection"⟩ ∧
    ((⟨"Computer Vision", "Object Detection"⟩ : Category) ∈
        ([⟨"CV", "Object Detection"⟩,
          ⟨"Computer Vision", "Object Detection"⟩] : List Category) →
      proposalsForGroup (fun _ => some ⟨"Computer Vision", "Object Detection"⟩)
          [⟨"CV", "Object Detection"⟩, ⟨"Computer Vision", "Object Detection"⟩]
        = (([⟨"CV", "Object Detection"⟩,
             ⟨"Computer Vision", "Object Detection"⟩] : List Category).filter
              (fun c => c ≠ ⟨"Computer Vision", "Object Detection"⟩)).map
            (fun c => ⟨c, ⟨"Computer Vision", "Object Detection"⟩,
                        "AI-Identified Synonym Group"⟩)) :=
  ⟨by decide, rfl,
   (C5_arbitration_member_rule (fun _ => some ⟨"Computer Vision", "Object Detection"⟩)
      [⟨"CV", "Object Detection"⟩, ⟨"Computer Vision", "Object Detection"⟩]
      ⟨"Computer Vision", "Object Detection"⟩ (by decide) rfl).2.1⟩

lemma selectTopMetas_length_le (N : Nat) (dm : String → Option VMeta) :
    ∀ (ranked : List String) (acc : List VMeta) (seen : List String),
      (selectTopMetas N dm ranked acc seen).length ≤ max N acc.length := by
  intro ranked
  induction ranked with
  | nil =>
    intro acc seen
    rw [selectTopMetas]
    exact le_max_right N acc.length
  | cons d rest ih =>
    intro acc seen
    rw [selectTopMetas]
    by_cases hN : N ≤ acc.length
    · rw [if_pos hN]; exact le_max_right N acc.length
    · rw [if_neg hN]
      cases hdm : dm d with
      | none => exact ih acc seen
      | some m =>
        dsimp only
        by_cases hc : m.sourceId ≠ "" ∧ m.sourceId ∉ seen
        · rw [if_pos hc]
          have hstep := ih (acc ++ [m]) (m.sourceId :: seen)
          have hlen : (acc ++ [m]).length = acc.length + 1 := by simp
          have hle : acc.length + 1 ≤ N := Nat.succ_le_of_lt (Nat.lt_of_not_le hN)
          have hmax : max N (acc ++ [m]).length = N := by
            rw [hlen]; exact Nat.max_eq_left hle
          calc (selectTopMetas N dm rest (acc ++ [m]) (m.sourceId :: seen)).length
              ≤ max N (acc ++ [m]).length := hstep
            _ = N := hmax
            _ ≤ max N acc.length := le_max_left _ _
        · rw [if_neg hc]
          exact ih acc seen

lemma selectTopMetas_pairwise (N : Nat) (dm : String → Option VMeta) :
    ∀ (ranked : List String) (acc : List VMeta) (seen : List String),
      (∀ m ∈ acc, m.sourceId ∈ seen) →
      acc.Pairwise (fun a b => a.sourceId ≠ b.sourceId) →
      (selectTopMetas N dm ranked acc seen).Pairwise
        (fun a b => a.sourceId ≠ b.sourceId) := by
  intro ranked
  induction ranked with
  | nil =>
    intro acc seen _ hpair
    simpa [selectTopMetas] using hpair
  | cons d rest ih =>
    intro acc seen hseen hpair
    rw [selectTopMetas]
    by_cases hN : N ≤ acc.length
    · rw [if_pos hN]; exact hpair
    · rw [if_neg hN]
      cases hdm : dm d with
      | none => exact ih acc seen hseen hpair
      | some m =>
        dsimp only
        by_cases hc : m.sourceId ≠ "" ∧ m.sourceId ∉ seen
        · rw [if_pos hc]
          refine ih (acc ++ [m]) (m.sourceId :: seen) ?_ ?_
          · intro x hx
            rcases List.mem_append.mp hx with hx | hx
            · exact List.mem_cons_of_mem _ (hseen x hx)
            · have : x = m := by simpa using hx
              subst this
              exact List.mem_cons_self _ _
          · refine List.pairwise_append.mpr ⟨hpair, by simp, ?_⟩
            intro a ha b hb
            have hbm : b = m := by simpa using hb
            subst hbm
            intro heq
            exact hc.2 (heq ▸ hseen a ha)
        · rw [if_neg hc]
          exact ih acc seen hseen hpair

lemma contextBlocks_pairwise (getDetails : String → Option PaperRow)
    (sel : List VMeta)
    (h : sel.Pairwise (fun a b => a.sourceId ≠ b.sourceId)) :
    (contextBlocks getDetails sel).Pairwise (fun a b => a.1 ≠ b.1) := by
  refine List.Pairwise.filterMap _ ?_ h
  intro a a' hne b hb b' hb'
  rcases Option.map_eq_some'.mp hb with ⟨x, _, rfl⟩
  rcases Option.map_eq_some'.mp hb' with ⟨y, _, rfl⟩
  exact hne

/-- C7: every local-path query response contains at most `rerank_top_n`
(= configured `MAX_RELEVANT_PAPERS`) context blocks, and no two context
blocks share a `source_id` — one paper contributes at most one block even
when several of its chunks rank highly. -/
theorem C7_local_retrieval_dedup (encode : String → List Int)
    (ntotal : Nat) (inner : Nat → List Int × List Int)
    (metaOf : Int → Option VMeta)
    (rankDocs : List String → List String)
    (getDetails : String → Option PaperRow)
    (topK rerankTopN : Nat) (query : String) :
    (retrieve_local_context encode ntotal inner metaOf rankDocs getDetails
        topK rerankTopN query).length ≤ rerankTopN ∧
    (retrieve_local_context encode ntotal inner metaOf rankDocs getDetails
        topK rerankTopN query).Pairwise (fun a b => a.1 ≠ b.1) := by
  have key : ∀ (dm : String → Option VMeta) (ranked : List String),
      (contextBlocks getDetails (selectTopMetas rerankTopN dm ranked [] [])).length
          ≤ rerankTopN ∧
      (contextBlocks getDetails
          (selectTopMetas rerankTopN dm ranked [] [])).Pairwise
        (fun a b => a.1 ≠ b.1) := by
    intro dm ranked
    constructor
    · refine (List.length_filterMap_le _ _).trans ?_
      have := selectTopMetas_length_le rerankTopN dm ranked [] []
      simpa using this
    · exact contextBlocks_pairwise _ _
        (selectTopMetas_pairwise rerankTopN dm ranked [] [] (by simp) (by simp))
  unfold retrieve_local_context
  dsimp only
  split_ifs
  · simp
  · simp
  · simp
  · exact key _ _

/-- C9: with zero vectors in the index, `search` returns empty arrays
rather than failing, so the local-path query workflow on an empty database
ends with the "not found in local knowledge base" final message and an
empty source list. -/
theorem C9_empty_index_not_found (encode : String → List Int)
    (inner : Nat → List Int × List Int)
    (metaOf : Int → Option VMeta)
    (rankDocs : List String → List String)
    (getDetails : String → Option PaperRow)
    (topK rerankTopN : Nat) (query : String)
    (synth : String → List (String × PaperRow) → Option String) :
    vector_search 0 inner topK = ([], []) ∧
    retrieve_local_context encode 0 inner metaOf rankDocs getDetails
        topK rerankTopN query = [] ∧
    run_stream_local
        (retrieve_local_context encode 0 inner metaOf rankDocs getDetails
          topK rerankTopN)
        synth query
      = ⟨notFoundAnswer "Local Knowledge Base", []⟩ := by
  have hsearch : vector_search 0 inner topK = ([], []) := by
    simp [vector_search]
  have hret : retrieve_local_context encode 0 inner metaOf rankDocs getDetails
      topK rerankTopN query = [] := by
    simp [retrieve_local_context, vector_search]
  refine ⟨hsearch, hret, ?_⟩
  simp [run_stream_local, hret]

lemma get_max_vector_id_append (a b : List VMeta) :
    get_max_vector_id (a ++ b)
      = b.foldl (fun acc r => max acc r.id) (get_max_vector_id a) := by
  simp [get_max_vector_id, List.foldl_append]

/-- C1: a successful embedding batch of `n` texts (the embedding service
returned one vector per text and the batch was not skipped) inserts exactly
`n` metadata rows, appends exactly `n` vectors to the index, and the
inserted metadata ids are precisely the contiguous range
`[oldIndexCount, oldIndexCount + n - 1]`, `oldIndexCount` being the index's
vector count immediately before the append (ids are allocated as
`get_max_vector_id + 1, + 2, …`). -/
theorem C1_batch_contiguous_ids (arxivId : String) (domainId taskId i : Nat)
    (batchTexts : List String) (vectors : List (List Int)) (st : Store)
    (hAlign : get_max_vector_id st.vectorMeta = (st.indexCount : Int) - 1)
    (hEnc : vectors.length = batchTexts.length)
    (hNe : vectors.length ≠ 0) :
    (processEmbeddingBatch arxivId domainId taskId i batchTexts vectors st).vectorMeta.length
        = st.vectorMeta.length + batchTexts.length ∧
    (processEmbeddingBatch arxivId domainId taskId i batchTexts vectors st).indexCount
        = st.indexCount + batchTexts.length ∧
    ((processEmbeddingBatch arxivId domainId taskId i batchTexts vectors st).vectorMeta.drop
          st.vectorMeta.length).map (fun m => m.id)
        = (List.range batchTexts.length).map
            (fun k : Nat => (st.indexCount : Int) + (k : Int)) := by
  have hb : (vectors.length == 0) = false := by
    simp [hNe]
  have hstart : get_max_vector_id st.vectorMeta + 1 = (st.indexCount : Int) := by
    rw [hAlign]; ring
  simp only [processEmbeddingBatch, hb, Bool.false_eq_true, if_false]
  refine ⟨by simp, by simp [hEnc], ?_⟩
  rw [List.drop_left, List.map_map]
  have hfun : ((fun m : VMeta => m.id) ∘
      (fun jt : Nat × String =>
        let j : Nat := jt.1
        let isSummary := i == 0 && j == 0
        { id := get_max_vector_id st.vectorMeta + 1 + (j : Int)
          mtype := if isSummary then "paper_summary" else "raw_chunk"
          sourceId := arxivId
          chunkSeq := if isSummary then none else some (i + j - 1 : Nat)
          domainId := some domainId
          taskId := some taskId
          contentPreview := jt.2.take 200 : VMeta }))
      = (fun jt : Nat × String =>
          get_max_vector_id st.vectorMeta + 1 + (jt.1 : Int)) := rfl
  rw [hfun]
  have hsplit : batchTexts.enum.map
        (fun jt : Nat × String => get_max_vector_id st.vectorMeta + 1 + (jt.1 : Int))
      = (batchTexts.enum.map Prod.fst).map
          (fun k : Nat => get_max_vector_id st.vectorMeta + 1 + (k : Int)) := by
    rw [List.map_map]
    exact List.map_congr_left (fun jt _ => rfl)
  rw [hsplit, List.enum_map_fst, hstart]

/-- Witness for `C1_batch_contiguous_ids`: a two-text batch over the empty
store. -/
theorem C1_batch_contiguous_ids_witness :
    get_max_vector_id emptyStore.vectorMeta = (emptyStore.indexCount : Int) - 1 ∧
    ((processEmbeddingBatch "2401.00001" 1 1 0 ["sum", "chunk"] [[0], [1]]
          emptyStore).vectorMeta.length
        = emptyStore.vectorMeta.length + ["sum", "chunk"].length ∧
      (processEmbeddingBatch "2401.00001" 1 1 0 ["sum", "chunk"] [[0], [1]]
          emptyStore).indexCount
        = emptyStore.indexCount + ["sum", "chunk"].length ∧
      ((processEmbeddingBatch "2401.00001" 1 1 0 ["sum", "chunk"] [[0], [1]]
            emptyStore).vectorMeta.drop emptyStore.vectorMeta.length).map
          (fun m => m.id)
        = (List.range (["sum", "chunk"] : List String).length).map
            (fun k : Nat => (emptyStore.indexCount : Int) + (k : Int))) :=
  ⟨by decide,
   C1_batch_contiguous_ids "2401.00001" 1 1 0 ["sum", "chunk"] [[0], [1]]
     emptyStore (by decide) rfl (by decide)⟩

lemma mem_foldl_append {α β : Type} (f : α → List β) :
    ∀ (l : List α) (acc : List β) (b : β),
      (b ∈ l.foldl (fun a x => a ++ f x) acc ↔ b ∈ acc ∨ ∃ x ∈ l, b ∈ f x) := by
  intro l
  induction l with
  | nil => simp
  | cons y ys ih =>
    intro acc b
    rw [List.foldl_cons, ih]
    simp only [List.mem_append, List.mem_cons]
    constructor
    · rintro ((h | h) | ⟨x, hx, hb⟩)
      · exact Or.inl h
      · exact Or.inr ⟨y, Or.inl rfl, h⟩
      · exact Or.inr ⟨x, Or.inr hx, hb⟩
    · rintro (h | ⟨x, (rfl | hx), hb⟩)
      · exact Or.inl (Or.inl h)
      · exact Or.inl (Or.inr hb)
      · exact Or.inr ⟨x, hx, hb⟩

lemma proposalsForGroup_spec (arb : List Category → Option Category)
    (g : List Category) (p : Proposal) (hp : p ∈ proposalsForGroup arb g) :
    p.fromCat ≠ p.toCat ∧ p.fromCat ∈ g := by
  unfold proposalsForGroup at hp
  split at hp
  · simp at hp
  · split at hp
    · simp at hp
    · split at hp
      · rcases List.mem_map.mp hp with ⟨c, hc, rfl⟩
        rcases List.mem_filter.mp hc with ⟨hcg, hcne⟩
        exact ⟨of_decide_eq_true hcne, hcg⟩
      · simp at hp

lemma proposalsForCluster_mem (subsets : List Category → Option (List (List Category)))
    (arb : List Category → Option Category) (cl : List Category) (p : Proposal)
    (hp : p ∈ proposalsForCluster subsets arb cl) :
    ∃ groups, subsets cl = some groups ∧ ∃ g ∈ groups, p ∈ proposalsForGroup arb g := by
  unfold proposalsForCluster at hp
  split at hp
  · simp at hp
  · rename_i groups heq
    split at hp
    · simp at hp
    · rcases (mem_foldl_append (proposalsForGroup arb) groups [] p).mp hp with
        h | ⟨g, hg, hpg⟩
      · simp at h
      · exact ⟨groups, heq, g, hg, hpg⟩

/-- C4 counterexample: the synonym-subset service's answer is not validated
against the cluster it was given, so a hallucinated group member becomes
the `from` of an emitted proposal even though it is absent from the
original category list. -/
theorem C4_counterexample :
    propose_category_merges [⟨"A", "x"⟩, ⟨"B", "y"⟩]
        (fun l => [l])
        (fun _ => some [[⟨"A", "x"⟩, ⟨"Z", "z"⟩]])
        (fun _ => some ⟨"A", "x"⟩)
      = [⟨⟨"Z", "z"⟩, ⟨"A", "x"⟩, "AI-Identified Synonym Group"⟩] ∧
    (⟨"Z", "z"⟩ : Category) ∉ ([⟨"A", "x"⟩, ⟨"B", "y"⟩] : List Category) := by
  decide

lemma propose_category_merges_mem (flat : List Category)
    (clusterFn : List Category → List (List Category))
    (subsets : List Category → Option (List (List Category)))
    (arbitrate : List Category → Option Category) (p : Proposal)
    (hp : p ∈ propose_category_merges flat clusterFn subsets arbitrate) :
    ∃ cl ∈ clusterFn flat, ∃ g ∈ (subsets cl).getD [],
      p ∈ proposalsForGroup arbitrate g := by
  unfold propose_category_merges at hp
  split at hp
  · simp at hp
  · rcases (mem_foldl_append (proposalsForCluster subsets arbitrate) _ [] p).mp hp with
      h | ⟨cl, hcl', hpcl⟩
    · simp at h
    · rcases proposalsForCluster_mem subsets arbitrate cl p hpcl with
        ⟨groups, heq, g, hg, hpg⟩
      exact ⟨cl, (List.mem_filter.mp hcl').1, g, by rw [heq]; exact hg, hpg⟩

/-- C4 (amended): every emitted proposal satisfies `from ≠ to` — this
holds unconditionally, for every answer the classification service may
return for synonym subsets or arbitration.  The `from`-exists-in-the-
original-list half holds only provided every synonym group returned by the
classification service contains only members of the cluster it was given
(and every cluster contains only original categories — true of the
source's clustering, which partitions the original list). -/
theorem C4_proposal_invariant (flatCategories : List Category)
    (clusterFn : List Category → List (List Category))
    (subsets : List Category → Option (List (List Category)))
    (arbitrate : List Category → Option Category) :
    (∀ p ∈ propose_category_merges flatCategories clusterFn subsets arbitrate,
      p.fromCat ≠ p.toCat) ∧
    ((∀ cl ∈ clusterFn flatCategories, ∀ c ∈ cl, c ∈ flatCategories) →
      (∀ cl ∈ clusterFn flatCategories,
        ∀ g ∈ (subsets cl).getD [], ∀ c ∈ g, c ∈ cl) →
      ∀ p ∈ propose_category_merges flatCategories clusterFn subsets arbitrate,
        p.fromCat ∈ flatCategories) := by
  constructor
  · intro p hp
    rcases propose_category_merges_mem flatCategories clusterFn subsets arbitrate p hp
      with ⟨cl, _, g, _, hpg⟩
    exact (proposalsForGroup_spec arbitrate g p hpg).1
  · intro hcl hsub p hp
    rcases propose_category_merges_mem flatCategories clusterFn subsets arbitrate p hp
      with ⟨cl, hclmem, g, hg, hpg⟩
    exact hcl cl hclmem _
      (hsub cl hclmem g hg _ (proposalsForGroup_spec arbitrate g p hpg).2)

/-- Witness for `C4_proposal_invariant`: the unconditional `from ≠ to`
conjunct exercised at a hallucinating subset service (the same oracles as
the counterexample), and the conditional membership conjunct discharged at
a well-behaved subset service that returns the cluster itself. -/
theorem C4_proposal_invariant_witness :
    (∀ p ∈ propose_category_merges [⟨"A", "x"⟩, ⟨"B", "y"⟩]
        (fun l => [l])
        (fun _ => some [[⟨"A", "x"⟩, ⟨"Z", "z"⟩]])
        (fun _ => some ⟨"A", "x"⟩),
      p.fromCat ≠ p.toCat) ∧
    (∀ p ∈ propose_category_merges
        [⟨"CV", "OD"⟩, ⟨"Computer Vision", "OD"⟩]
        (fun l => [l])
        (fun cl => some [cl])
        (fun g => g.head?),
      p.fromCat ∈ ([⟨"CV", "OD"⟩, ⟨"Computer Vision", "OD"⟩] : List Category)) :=
  ⟨(C4_proposal_invariant [⟨"A", "x"⟩, ⟨"B", "y"⟩]
      (fun l => [l])
      (fun _ => some [[⟨"A", "x"⟩, ⟨"Z", "z"⟩]])
      (fun _ => some ⟨"A", "x"⟩)).1,
   (C4_proposal_invariant [⟨"CV", "OD"⟩, ⟨"Computer Vision", "OD"⟩]
      (fun l => [l]) (fun cl => some [cl]) (fun g => g.head?)).2
     (by decide) (by decide)⟩

/-- C3: for a store containing categories A = (nDA, tA), B = (nDB, tB),
C = (nDC, tC) (arbitrary paper and vector-metadata rows), executing the
confirmed merges A→B then B→C through the two-phase executor leaves every
paper and vector-metadata row formerly pointing at A's or B's task pointing
at C (domain and task alike), and deletes A's and B's task rows. -/
theorem C3_chained_two_phase_merge (nDA nDB nDC tA tB tC : String)
    (ps : List PaperRow) (vs : List VMeta)
    (hAB : nDA ≠ nDB) (hAC : nDA ≠ nDC) (hBC : nDB ≠ nDC) :
    execute_category_merges
      { domains := [⟨1, nDA⟩, ⟨2, nDB⟩, ⟨3, nDC⟩],
        tasks := [⟨1, tA, 1⟩, ⟨2, tB, 2⟩, ⟨3, tC, 3⟩],
        papers := ps, vectorMeta := vs, indexCount := 0,
        nextDomainId := 4, nextTaskId := 4, nextPaperId := 1 }
      [⟨nDA, tA, nDB, tB⟩, ⟨nDB, tB, nDC, tC⟩]
    = { domains := [⟨1, nDA⟩, ⟨2, nDB⟩, ⟨3, nDC⟩],
        tasks := [⟨3, tC, 3⟩],
        papers := ps.map (fun p =>
          if p.taskId = some 1 ∨ p.taskId = some 2 then
            { p with domainId := some 3, taskId := some 3 } else p),
        vectorMeta := vs.map (fun v =>
          if v.taskId = some 1 ∨ v.taskId = some 2 then
            { v with domainId := some 3, taskId := some 3 } else v),
        indexCount := 0, nextDomainId := 4, nextTaskId := 4, nextPaperId := 1 } := by
  have eAB : (nDA == nDB) = false := beq_eq_false_iff_ne.mpr hAB
  have eAC : (nDA == nDC) = false := beq_eq_false_iff_ne.mpr hAC
  have eBC : (nDB == nDC) = false := beq_eq_false_iff_ne.mpr hBC
  simp [execute_category_merges, execute_category_merge, add_or_get_domain,
    add_or_get_task, List.find?, eAB, eAC, eBC]
  constructor
  · intro a _
    by_cases h1 : a.taskId = some 1
    · simp [h1]
    · by_cases h2 : a.taskId = some 2 <;> simp [h1, h2]
  · intro a _
    by_cases h1 : a.taskId = some 1
    · simp [h1]
    · by_cases h2 : a.taskId = some 2 <;> simp [h1, h2]

/-- Witness for `C3_chained_two_phase_merge`: domains A, B, C with tasks
x, y, z, one paper and one metadata row on A and one of each on B. -/
theorem C3_chained_two_phase_merge_witness :
    ("A" : String) ≠ "B" ∧
    execute_category_merges
      { domains := [⟨1, "A"⟩, ⟨2, "B"⟩, ⟨3, "C"⟩],
        tasks := [⟨1, "x", 1⟩, ⟨2, "y", 2⟩, ⟨3, "z", 3⟩],
        papers := [⟨1, "p1", "T1", [], none, none, "d", none, none, some 1, some 1⟩,
                   ⟨2, "p2", "T2", [], none, none, "d", none, none, some 2, some 2⟩],
        vectorMeta := [⟨0, "paper_summary", "p1", none, some 1, some 1, "c"⟩,
                       ⟨1, "raw_chunk", "p2", some 0, some 2, some 2, "c"⟩],
        indexCount := 0, nextDomainId := 4, nextTaskId := 4, nextPaperId := 1 }
      [⟨"A", "x", "B", "y"⟩, ⟨"B", "y", "C", "z"⟩]
    = { domains := [⟨1, "A"⟩, ⟨2, "B"⟩, ⟨3, "C"⟩],
        tasks := [⟨3, "z", 3⟩],
        papers := [⟨1, "p1", "T1", [], none, none, "d", none, none, some 1, some 1⟩,
                   ⟨2, "p2", "T2", [], none, none, "d", none, none, some 2, some 2⟩].map
          (fun p => if p.taskId = some 1 ∨ p.taskId = some 2 then
              { p with domainId := some 3, taskId := some 3 } else p),
        vectorMeta := [⟨0, "paper_summary", "p1", none, some 1, some 1, "c"⟩,
                       ⟨1, "raw_chunk", "p2", some 0, some 2, some 2, "c"⟩].map
          (fun v => if v.taskId = some 1 ∨ v.taskId = some 2 then
              { v with domainId := some 3, taskId := some 3 } else v),
        indexCount := 0, nextDomainId := 4, nextTaskId := 4, nextPaperId := 1 } :=
  ⟨by decide,
   C3_chained_two_phase_merge "A" "B" "C" "x" "y" "z"
     [⟨1, "p1", "T1", [], none, none, "d", none, none, some 1, some 1⟩,
      ⟨2, "p2", "T2", [], none, none, "d", none, none, some 2, some 2⟩]
     [⟨0, "paper_summary", "p1", none, some 1, some 1, "c"⟩,
      ⟨1, "raw_chunk", "p2", some 0, some 2, some 2, "c"⟩]
     (by decide) (by decide) (by decide)⟩

end AutoArxiv
